import Mathlib

/-!
Verification of the AnalytIQ upload-and-analyze orchestration flow.

This file gives a shallow embedding of the client code:
  * the API client (`src/services/api.ts`): `healthCheck`, `uploadAndAnalyze`,
    `analyzeSupabaseCSV`, `getReportById`;
  * the upload orchestrator `handleSubmit` of the Upload page
    (the real-flow variant that stages the file to object storage and then
    calls the storage-based analyze endpoint).

JavaScript values returned by `response.json()` are modelled by `JsVal`;
machine behaviour relevant to the claims (property access, truthiness,
string coercion, array indexing with a possibly negative index, decimal
rendering of numbers in template strings) is embedded explicitly.
-/

/-- A JSON value as produced by `response.json()` in the client. -/
inductive JsVal where
  | nullv : JsVal
  | boolv : Bool → JsVal
  | num : Int → JsVal
  | str : String → JsVal
  | arr : List JsVal → JsVal
  | obj : List (String × JsVal) → JsVal

/-- JS property access `v.k` on a decoded JSON value: `none` models
`undefined` (non-object receiver or absent field). -/
def JsVal.getField (v : JsVal) (k : String) : Option JsVal :=
  match v with
  | .obj fields => fields.lookup k
  | _ => none

/-- JS truthiness of a possibly-undefined value, as used by `x || fallback`:
`undefined`, `null`, `false`, `0` and `""` are falsy. -/
def jsTruthy : Option JsVal → Bool
  | none => false
  | some .nullv => false
  | some (.boolv b) => b
  | some (.num n) => !(n = 0)
  | some (.str s) => !(s = "")
  | some (.arr _) => true
  | some (.obj _) => true

/-- Decimal digits of a natural number, fuel-driven so that it reduces in the
kernel; `decCharsAux (n+1) n` renders `n` (most significant digit first). -/
def decCharsAux : Nat → Nat → List Char
  | 0, _ => []
  | fuel + 1, n =>
    if n < 10 then [Nat.digitChar n]
    else decCharsAux fuel (n / 10) ++ [Nat.digitChar (n % 10)]

/-- Decimal digits of `n`, most significant digit first. -/
def decChars (n : Nat) : List Char :=
  decCharsAux (n + 1) n

/-- Decimal rendering of a natural number, as JS template strings render
non-negative integers (`Date.now()` values, HTTP status codes). -/
def decString (n : Nat) : String :=
  ⟨decChars n⟩

/-- JS `String(x)` coercion of an integer. -/
def intToString (i : Int) : String :=
  if i < 0 then "-" ++ decString i.natAbs else decString i.toNat

mutual

/-- JS `String(x)` coercion of a JSON value, as applied by
`new Error(message)` to a non-string message. -/
def jsToString : JsVal → String
  | .nullv => "null"
  | .boolv b => if b then "true" else "false"
  | .num n => intToString n
  | .str s => s
  | .arr elems => String.intercalate "," (jsToStringList elems)
  | .obj _ => "[object Object]"

/-- Pointwise `String(·)` coercion of the elements of a JSON array. -/
def jsToStringList : List JsVal → List String
  | [] => []
  | v :: vs => jsToString v :: jsToStringList vs

end

/-- JS `x || fallback` followed by `String(·)`, as in
`new Error(errorData.detail || fallbackMessage)`. -/
def jsOrElse (v : Option JsVal) (fallback : String) : String :=
  if jsTruthy v then
    match v with
    | some w => jsToString w
    | none => fallback
  else fallback

/-- An HTTP response as the client observes it: the `ok` flag, the numeric
status, and the result of `response.json()` — `none` when the body is not
valid JSON, in which case `response.json()` rejects. -/
structure HttpResponse where
  ok : Bool
  status : Nat
  json : Option JsVal

/-- Message of the rejection produced when `response.json()` fails. -/
def jsonDecodeError : String := "SyntaxError: Unexpected end of JSON input"

/-- Message of the rejection produced when `fetch` itself fails
(network-level failure, no response). -/
def fetchNetworkError : String := "TypeError: Failed to fetch"

namespace ApiService

/-- `apiService.healthCheck()`: one `fetch` of `/health`; throws
`Health check failed` on a non-ok status, otherwise returns the decoded
body. The transport is modelled as the list of responses successive
requests would receive; the empty list models a network-level failure. -/
def healthCheck : List HttpResponse → Except String JsVal
  | [] => .error fetchNetworkError
  | r :: _ =>
    if !r.ok then .error "Health check failed"
    else
      match r.json with
      | some v => .ok v
      | none => .error jsonDecodeError

/-- The message thrown by `uploadAndAnalyze` on a non-ok response:
`errorData.detail || "Upload failed with status <status>"` where
`errorData` is the decoded error body, `{}` when decoding fails. -/
def uploadFailMessage (r : HttpResponse) : String :=
  jsOrElse ((r.json.getD (.obj [])).getField "detail")
    ("Upload failed with status " ++ decString r.status)

/-- `apiService.uploadAndAnalyze(file)`: one POST of the file as multipart
form data; on a non-ok status the error body is decoded with a fallback to
`{}` (`response.json().catch(() => ({}))`) and the thrown message is
`errorData.detail || "Upload failed with status <status>"`. -/
def uploadAndAnalyze : List HttpResponse → Except String JsVal
  | [] => .error fetchNetworkError
  | r :: _ =>
    if !r.ok then .error (uploadFailMessage r)
    else
      match r.json with
      | some v => .ok v
      | none => .error jsonDecodeError

/-- The message thrown by `analyzeSupabaseCSV` on a non-ok response:
`errorData.detail || "Analyze failed with status <status>"` where
`errorData` is the decoded error body, `{}` when decoding fails. -/
def analyzeFailMessage (r : HttpResponse) : String :=
  jsOrElse ((r.json.getD (.obj [])).getField "detail")
    ("Analyze failed with status " ++ decString r.status)

/-- `apiService.analyzeSupabaseCSV(bucket, path)`: one POST of the JSON body
`{bucket, path}`; same success/error contract as `uploadAndAnalyze` with the
`Analyze failed` fallback message. -/
def analyzeSupabaseCSV (bucket path : String) :
    List HttpResponse → Except String JsVal
  | [] => .error fetchNetworkError
  | r :: _ =>
    if !r.ok then .error (analyzeFailMessage r)
    else
      match r.json with
      | some v => .ok v
      | none => .error jsonDecodeError

/-- `apiService.getReportById(reportId)`: one GET; throws
`Failed to get report: <status>` on a non-ok status. -/
def getReportById (reportId : String) :
    List HttpResponse → Except String JsVal
  | [] => .error fetchNetworkError
  | r :: _ =>
    if !r.ok then .error ("Failed to get report: " ++ decString r.status)
    else
      match r.json with
      | some v => .ok v
      | none => .error jsonDecodeError

end ApiService

/-!
Upload orchestrator (`handleSubmit` of the Upload page, real-flow variant).
The run of one submission is embedded as a pure function from a
`SubmitEnv` — the file selection, the clock value, the outcome of the
storage write, the transport responses of the analyze call, and how often
the 3-second progress interval fires — to a `SubmitTrace` recording the
externally observable effects of that run.
-/

/-- JS `s.split('.')` on the character list of a string: splits at every
`'.'`, keeping empty segments, and always returns at least one segment. -/
def splitDotAux : List Char → List Char → List (List Char)
  | [], acc => [acc.reverse]
  | c :: rest, acc =>
    if c = '.' then acc.reverse :: splitDotAux rest []
    else splitDotAux rest (c :: acc)

/-- `selectedFile.name.split('.').pop()?.toLowerCase()`: the final
dot-separated segment of the filename, lowercased (for a dotless name this
is the whole name). -/
def extOf (name : String) : String :=
  ⟨((splitDotAux name.data []).getLastD []).map Char.toLower⟩

/-- The specification predicate of the validation claim: the filename ends
in `.csv`, compared case-insensitively. -/
def endsWithCsvCI (name : String) : Bool :=
  ".csv".data.isSuffixOf (name.data.map Char.toLower)

/-- `` `${Date.now()}_${selectedFile.name}` ``: the object-storage key of
one submission attempt. -/
def storageKey (now : Nat) (name : String) : String :=
  decString now ++ "_" ++ name

/-- The predefined ordered list of cosmetic (message, percentage) steps the
progress interval is meant to walk through. -/
def progressSteps : List (String × Int) :=
  [("Schema Expert analyzing data structure...", 25),
   ("Data Cleaner processing quality issues...", 45),
   ("Stats Guru generating insights...", 65),
   ("Chart Wizard creating visualizations...", 80),
   ("Storyteller crafting narrative...", 95)]

/-- JS array indexing `l[i]` with an `Int` index: `none` models `undefined`
(negative or out-of-range index). -/
def jsIndex (l : List (String × Int)) (i : Int) : Option (String × Int) :=
  if i < 0 then none else l.get? i.toNat

/-- Outcome of one firing of the 3-second interval callback. -/
inductive TickResult where
  | wrote : String → Int → TickResult
  | noop : TickResult
  | crashed : TickResult
deriving DecidableEq

/-- One firing of the interval callback:
`currentIndex = Math.floor((progress - 10) / 20)`, where `progress` is the
value of the `progress` state variable captured by the `handleSubmit`
closure at the render that created it (React state reads inside the
callback see that captured value, not later updates); if
`currentIndex < progressSteps.length` the callback reads
`progressSteps[currentIndex]` — `crashed` models the `TypeError` raised
when that access yields `undefined` — and otherwise does nothing. -/
def progressTick (captured : Int) : TickResult :=
  let currentIndex : Int := (captured - 10).fdiv 20
  if currentIndex < (progressSteps.length : Int) then
    match jsIndex progressSteps currentIndex with
    | some step => .wrote step.1 step.2
    | none => .crashed
  else .noop

/-- A single write to the (currentStep, progress) state pair. -/
inductive PWrite where
  | msg : String → PWrite
  | pct : Int → PWrite
deriving DecidableEq

/-- The state writes one firing of the interval callback performs:
`setCurrentStep(step.message); setProgress(step.progress)` when it reaches
them, nothing when it does nothing or crashes first. -/
def tickWriteList (captured : Int) : List PWrite :=
  match progressTick captured with
  | .wrote m p => [.msg m, .pct p]
  | .noop => []
  | .crashed => []

/-- The state writes of `n` successive firings of the interval callback. -/
def ticksWrites (captured : Int) : Nat → List PWrite
  | 0 => []
  | n + 1 => tickWriteList captured ++ ticksWrites captured n

/-- Terminal situation of one `handleSubmit` run. `failed` carries the
message of the error reaching the catch block: the error taxonomy of the
specification corresponds to these messages — `InvalidFileType` to
`Only CSV files are allowed.`, `StorageError` to
`Upload to storage failed: ...`, `AnalysisError` to the message built by
`analyzeSupabaseCSV`. -/
inductive FinalState where
  | idle : FinalState
  | succeeded : JsVal → FinalState
  | failed : String → FinalState

/-- Externally observable effects of one `handleSubmit` run. -/
structure SubmitTrace where
  final : FinalState
  /-- Keys written to object storage by this run, in order. -/
  storageKeys : List String
  /-- Whether `apiService.analyzeSupabaseCSV` was invoked. -/
  analyzeCalled : Bool
  /-- (currentStep, progress) writes issued by the submit flow itself,
  including those of interval firings before the analyze call settles. -/
  mainWrites : List PWrite
  /-- (currentStep, progress) writes issued by the catch block. -/
  catchWrites : List PWrite
  /-- (currentStep, progress) writes issued by interval firings after the
  run finished — nonempty only if the interval was left running. -/
  lateWrites : List PWrite
  /-- Whether `setInterval` was invoked. -/
  timerStarted : Bool
  /-- Whether `clearInterval` was invoked. -/
  timerCleared : Bool
  /-- Final value of `isProcessing`. -/
  isProcessingEnd : Bool
  /-- Payload handed to the report page by `navigate`, if any. -/
  forwarded : Option JsVal

/-- Inputs of one `handleSubmit` run. -/
structure SubmitEnv where
  /-- The selected file, `none` when no file was chosen. -/
  selectedFileName : Option String
  /-- `Date.now()` at this submission. -/
  now : Nat
  /-- `VITE_SUPABASE_BUCKET`. -/
  bucket : String
  /-- Outcome of the storage upload: `none` on success, the error message
  otherwise. -/
  storageError : Option String
  /-- Transport responses of the analyze call. -/
  analyzeResponses : List HttpResponse
  /-- Value of the `progress` state variable at the render that created the
  `handleSubmit` closure. At every reachable submission start this value is
  `0`: the initial state is `0`, a failed run resets it to `0`, and after a
  successful run `isProcessing` stays `true` so the submit button can never
  be pressed again on this mount. -/
  renderProgress : Int
  /-- Number of interval firings before the analyze call settles. -/
  pendingTicks : Nat
  /-- Number of interval firings after the run finished, when the interval
  was left running. -/
  lateTicks : Nat

/-- Shallow embedding of `handleSubmit`:
no file → toast only; otherwise validate the extension, stage the file to
storage under `` `${Date.now()}_${name}` ``, start `analyzeSupabaseCSV` and
the 3-second progress interval, and on settlement either clear the interval,
force (Analysis complete!, 100) and navigate with the result, or fall into
the catch block, which resets `isProcessing`, `progress` and `currentStep`
but does not clear the interval. -/
def handleSubmit (env : SubmitEnv) : SubmitTrace :=
  match env.selectedFileName with
  | none =>
    { final := .idle, storageKeys := [], analyzeCalled := false,
      mainWrites := [], catchWrites := [], lateWrites := [],
      timerStarted := false, timerCleared := false,
      isProcessingEnd := false, forwarded := none }
  | some name =>
    let pre : List PWrite :=
      [.msg "Uploading file and initializing AI agents...", .pct 10,
       .msg "Uploading file to storage..."]
    if extOf name ≠ "csv" then
      { final := .failed "Only CSV files are allowed.",
        storageKeys := [], analyzeCalled := false,
        mainWrites := pre, catchWrites := [.pct 0, .msg ""], lateWrites := [],
        timerStarted := false, timerCleared := false,
        isProcessingEnd := false, forwarded := none }
    else
      let uniquePath := storageKey env.now name
      match env.storageError with
      | some message =>
        { final := .failed ("Upload to storage failed: " ++ message),
          storageKeys := [uniquePath], analyzeCalled := false,
          mainWrites := pre, catchWrites := [.pct 0, .msg ""], lateWrites := [],
          timerStarted := false, timerCleared := false,
          isProcessingEnd := false, forwarded := none }
      | none =>
        let ticks := ticksWrites env.renderProgress env.pendingTicks
        match ApiService.analyzeSupabaseCSV env.bucket uniquePath
            env.analyzeResponses with
        | .ok result =>
          { final := .succeeded result,
            storageKeys := [uniquePath], analyzeCalled := true,
            mainWrites := pre ++ ticks ++ [.msg "Analysis complete!", .pct 100],
            catchWrites := [], lateWrites := [],
            timerStarted := true, timerCleared := true,
            isProcessingEnd := true, forwarded := some result }
        | .error message =>
          { final := .failed message,
            storageKeys := [uniquePath], analyzeCalled := true,
            mainWrites := pre ++ ticks,
            catchWrites := [.pct 0, .msg ""],
            lateWrites := ticksWrites env.renderProgress env.lateTicks,
            timerStarted := true, timerCleared := false,
            isProcessingEnd := false, forwarded := none }

/-- Apply one state write to a (currentStep, progress) snapshot. -/
def applyWrite (s : String × Int) : PWrite → String × Int
  | .msg m => (m, s.2)
  | .pct p => (s.1, p)

/-- Apply a sequence of state writes to a snapshot. -/
def applyWrites (s : String × Int) (ws : List PWrite) : String × Int :=
  ws.foldl applyWrite s

/-- The snapshot left behind by a run that started from snapshot `s`. -/
def SubmitTrace.endSnapshot (t : SubmitTrace) (s : String × Int) : String × Int :=
  applyWrites s (t.mainWrites ++ t.catchWrites ++ t.lateWrites)

/-- The percentages written by a sequence of writes, in order. -/
def pcts (ws : List PWrite) : List Int :=
  ws.filterMap fun w =>
    match w with
    | .pct p => some p
    | .msg _ => none

/-!
Lemmas about decimal rendering, supporting the storage-key claims.
-/

theorem decCharsAux_fuel_irrel :
    ∀ f₁ f₂ n, n < f₁ → n < f₂ → decCharsAux f₁ n = decCharsAux f₂ n := by
  intro f₁
  induction f₁ with
  | zero => intro f₂ n h₁ _; omega
  | succ f ih =>
    intro f₂ n h₁ h₂
    cases f₂ with
    | zero => omega
    | succ g =>
      simp only [decCharsAux]
      by_cases hn : n < 10
      · simp [hn]
      · have hpos : 0 < n := by omega
        have hdiv : n / 10 < n := Nat.div_lt_self hpos (by omega)
        simp only [hn, if_false]
        rw [ih g (n / 10) (by omega) (by omega)]

theorem decChars_small {n : Nat} (h : n < 10) :
    decChars n = [Nat.digitChar n] := by
  simp [decChars, decCharsAux, h]

theorem decChars_big {n : Nat} (h : 10 ≤ n) :
    decChars n = decChars (n / 10) ++ [Nat.digitChar (n % 10)] := by
  have hdiv : n / 10 < n := Nat.div_lt_self (by omega) (by omega)
  conv_lhs => simp only [decChars, decCharsAux]
  rw [if_neg (by omega : ¬ n < 10),
    decCharsAux_fuel_irrel n (n / 10 + 1) (n / 10) hdiv (by omega), decChars]

/-- The numeric value of a list of decimal digit characters. -/
def decVal (l : List Char) : Nat :=
  l.foldl (fun a c => 10 * a + (c.toNat - 48)) 0

theorem decVal_append_digit (l : List Char) (c : Char) :
    decVal (l ++ [c]) = 10 * decVal l + (c.toNat - 48) := by
  simp [decVal, List.foldl_append]

theorem digitChar_toNat {d : Nat} (h : d < 10) :
    (Nat.digitChar d).toNat = 48 + d := by
  interval_cases d <;> rfl

theorem digitChar_ne_underscore {d : Nat} (h : d < 10) :
    Nat.digitChar d ≠ '_' := by
  interval_cases d <;> decide

theorem decVal_decChars : ∀ n, decVal (decChars n) = n := by
  intro n
  induction n using Nat.strong_induction_on with
  | _ n ih =>
    by_cases h : n < 10
    · rw [decChars_small h]
      show 10 * 0 + ((Nat.digitChar n).toNat - 48) = n
      rw [digitChar_toNat h]; omega
    · push_neg at h
      have hdiv : n / 10 < n := Nat.div_lt_self (by omega) (by omega)
      rw [decChars_big h, decVal_append_digit, ih (n / 10) hdiv,
        digitChar_toNat (Nat.mod_lt n (by omega))]
      omega

theorem decChars_inj {m n : Nat} (h : decChars m = decChars n) : m = n := by
  have := decVal_decChars m
  rw [h, decVal_decChars n] at this
  omega

theorem underscore_not_mem_decChars : ∀ n, '_' ∉ decChars n := by
  intro n
  induction n using Nat.strong_induction_on with
  | _ n ih =>
    by_cases h : n < 10
    · rw [decChars_small h]
      simp only [List.mem_singleton]
      exact fun heq => digitChar_ne_underscore h heq.symm
    · push_neg at h
      have hdiv : n / 10 < n := Nat.div_lt_self (by omega) (by omega)
      rw [decChars_big h]
      intro hmem
      rcases List.mem_append.mp hmem with h₁ | h₂
      · exact ih (n / 10) hdiv h₁
      · rw [List.mem_singleton] at h₂
        exact digitChar_ne_underscore (Nat.mod_lt n (by omega)) h₂.symm

theorem sep_append_inj :
    ∀ (l₁ l₂ r₁ r₂ : List Char), '_' ∉ l₁ → '_' ∉ l₂ →
      l₁ ++ '_' :: r₁ = l₂ ++ '_' :: r₂ → l₁ = l₂ ∧ r₁ = r₂ := by
  intro l₁
  induction l₁ with
  | nil =>
    intro l₂ r₁ r₂ _ h₂ heq
    cases l₂ with
    | nil => simpa using heq
    | cons c t =>
      simp only [List.nil_append, List.cons_append, List.cons.injEq] at heq
      exact absurd (heq.1 ▸ List.mem_cons_self c t) h₂
  | cons c t ih =>
    intro l₂ r₁ r₂ h₁ h₂ heq
    cases l₂ with
    | nil =>
      simp only [List.nil_append, List.cons_append, List.cons.injEq] at heq
      exact absurd (heq.1.symm ▸ List.mem_cons_self c t) h₁
    | cons d u =>
      simp only [List.cons_append, List.cons.injEq] at heq
      obtain ⟨hcd, htail⟩ := heq
      have h₁' : '_' ∉ t := fun hm => h₁ (List.mem_cons_of_mem c hm)
      have h₂' : '_' ∉ u := fun hm => h₂ (List.mem_cons_of_mem d hm)
      obtain ⟨hteq, hreq⟩ := ih u r₁ r₂ h₁' h₂' htail
      exact ⟨by rw [hcd, hteq], hreq⟩

theorem storageKey_data (t : Nat) (name : String) :
    (storageKey t name).data = decChars t ++ '_' :: name.data := by
  obtain ⟨l⟩ := name
  show (decString t ++ "_" ++ ⟨l⟩ : String).data = decChars t ++ '_' :: l
  simp [decString, String.append, List.append_assoc]

/-- Distinct submission timestamps always yield distinct storage keys,
whatever the filenames: the decimal timestamp is recoverable from the key
as the segment before the first underscore. -/
theorem storageKey_inj_time {t₁ t₂ : Nat} {n₁ n₂ : String} (h : t₁ ≠ t₂) :
    storageKey t₁ n₁ ≠ storageKey t₂ n₂ := by
  intro heq
  have hdata : (storageKey t₁ n₁).data = (storageKey t₂ n₂).data := by rw [heq]
  rw [storageKey_data, storageKey_data] at hdata
  obtain ⟨hchars, -⟩ := sep_append_inj _ _ _ _
    (underscore_not_mem_decChars t₁) (underscore_not_mem_decChars t₂) hdata
  exact h (decChars_inj hchars)

/-!
Support lemmas about `handleSubmit` traces.
-/

theorem storageKeys_of_valid (env : SubmitEnv) (name : String)
    (hf : env.selectedFileName = some name) (hext : extOf name = "csv") :
    (handleSubmit env).storageKeys = [storageKey env.now name] := by
  obtain ⟨f, now, bkt, st, resp, rp, pt, lt⟩ := env
  simp only at hf
  subst hf
  simp only [handleSubmit, hext, ne_eq, not_true_eq_false, if_false]
  cases st with
  | some m => rfl
  | none =>
    cases ApiService.analyzeSupabaseCSV bkt (storageKey now name) resp with
    | ok v => rfl
    | error m => rfl

/-!
Claim theorems.
-/

/-- C10: if submit is invoked while no file is selected, the run is a no-op
apart from the notification: the state stays idle, `isProcessing` remains
false, no storage write and no network call occurs, and no progress write
is made, so any starting ProgressSnapshot is unchanged. -/
theorem no_file_submit_is_noop (env : SubmitEnv)
    (h : env.selectedFileName = none) :
    handleSubmit env =
      { final := .idle, storageKeys := [], analyzeCalled := false,
        mainWrites := [], catchWrites := [], lateWrites := [],
        timerStarted := false, timerCleared := false,
        isProcessingEnd := false, forwarded := none } ∧
    ∀ s, (handleSubmit env).endSnapshot s = s := by
  obtain ⟨f, now, bkt, st, resp, rp, pt, lt⟩ := env
  simp only at h
  subst h
  exact ⟨rfl, fun s => rfl⟩

/-- Witness for C10 at a concrete environment with no selected file. -/
theorem no_file_submit_is_noop_witness :
    handleSubmit ⟨none, 1700000000000, "datasets", none, [], 0, 0, 0⟩ =
      { final := .idle, storageKeys := [], analyzeCalled := false,
        mainWrites := [], catchWrites := [], lateWrites := [],
        timerStarted := false, timerCleared := false,
        isProcessingEnd := false, forwarded := none } ∧
    (handleSubmit ⟨none, 1700000000000, "datasets", none, [], 0, 0, 0⟩).endSnapshot
      ("hello", 7) = ("hello", 7) :=
  ⟨(no_file_submit_is_noop _ rfl).1,
   (no_file_submit_is_noop _ rfl).2 ("hello", 7)⟩

/-- C2 (amended): a selected file whose lowercased final dot-separated
segment is not `csv` — every name not ending in `.csv` except a dotless
name whose entire lowercased text is `csv` — fails as `InvalidFileType`
(`Only CSV files are allowed.`) with no storage write and no network
call. -/
theorem invalid_extension_fails_without_calls (env : SubmitEnv) (name : String)
    (hf : env.selectedFileName = some name) (hext : extOf name ≠ "csv") :
    (handleSubmit env).final = .failed "Only CSV files are allowed." ∧
    (handleSubmit env).storageKeys = [] ∧
    (handleSubmit env).analyzeCalled = false ∧
    (handleSubmit env).timerStarted = false := by
  obtain ⟨f, now, bkt, st, resp, rp, pt, lt⟩ := env
  simp only at hf
  subst hf
  simp [handleSubmit, hext]

/-- Witness for the amended C2 at the concrete filename `data.txt`. -/
theorem invalid_extension_fails_without_calls_witness :
    (handleSubmit ⟨some "data.txt", 1700000000000, "datasets", none, [], 0, 0, 0⟩).final
      = .failed "Only CSV files are allowed." ∧
    (handleSubmit ⟨some "data.txt", 1700000000000, "datasets", none, [], 0, 0, 0⟩).storageKeys
      = [] ∧
    (handleSubmit ⟨some "data.txt", 1700000000000, "datasets", none, [], 0, 0, 0⟩).analyzeCalled
      = false ∧
    (handleSubmit ⟨some "data.txt", 1700000000000, "datasets", none, [], 0, 0, 0⟩).timerStarted
      = false :=
  invalid_extension_fails_without_calls _ "data.txt" rfl (by decide)

/-- C2 counterexample: the file named `csv` (no dot) does not end in
`.csv` under any case-insensitive reading, yet the code does not fail it —
with a succeeding storage write and analyze call it is staged to storage
under key `1700000000000_csv` and the analyze call is issued, contradicting
the claim that such a submission fails with no storage write and no
network call. -/
theorem csv_named_file_bypasses_validation :
    endsWithCsvCI "csv" = false ∧
    (handleSubmit ⟨some "csv", 1700000000000, "datasets", none,
        [⟨true, 200, some (.obj [("report_id", .str "r1")])⟩], 0, 0, 0⟩).storageKeys
      = ["1700000000000_csv"] ∧
    (handleSubmit ⟨some "csv", 1700000000000, "datasets", none,
        [⟨true, 200, some (.obj [("report_id", .str "r1")])⟩], 0, 0, 0⟩).analyzeCalled
      = true :=
  ⟨rfl, rfl, rfl⟩

/-- C3: for a valid csv file, a successful storage write and a successful
analyze call, the run succeeds: the final state carries the decoded result,
the result is forwarded unchanged to the report page, the final
ProgressSnapshot is (Analysis complete!, 100), and the storage key is the
timestamp-prefixed name. -/
theorem valid_submission_succeeds (env : SubmitEnv) (name : String)
    (v : JsVal) (r : HttpResponse) (rest : List HttpResponse)
    (hf : env.selectedFileName = some name) (hext : extOf name = "csv")
    (hst : env.storageError = none)
    (hresp : env.analyzeResponses = r :: rest)
    (hok : r.ok = true) (hjson : r.json = some v) :
    (handleSubmit env).final = .succeeded v ∧
    (handleSubmit env).forwarded = some v ∧
    (handleSubmit env).endSnapshot ("", 0) = ("Analysis complete!", 100) ∧
    (handleSubmit env).storageKeys = [storageKey env.now name] := by
  obtain ⟨f, now, bkt, st, resp, rp, pt, lt⟩ := env
  simp only at hf hst hresp
  subst hf; subst hst; subst hresp
  have hcall : ApiService.analyzeSupabaseCSV bkt (storageKey now name) (r :: rest)
      = .ok v := by
    obtain ⟨rok, rstatus, rjson⟩ := r
    simp only at hok hjson
    subst hok; subst hjson
    rfl
  simp only [handleSubmit, hext, ne_eq, not_true_eq_false, if_false, hcall]
  refine ⟨trivial, trivial, ?_, trivial⟩
  simp [SubmitTrace.endSnapshot, applyWrites, List.foldl_append, applyWrite]

/-- Witness for C3 at a concrete successful submission of `sales.csv`. -/
theorem valid_submission_succeeds_witness :
    (handleSubmit ⟨some "sales.csv", 1700000000000, "datasets", none,
        [⟨true, 200, some (.obj [("report_id", .str "r1")])⟩], 0, 0, 0⟩).final
      = .succeeded (.obj [("report_id", .str "r1")]) ∧
    (handleSubmit ⟨some "sales.csv", 1700000000000, "datasets", none,
        [⟨true, 200, some (.obj [("report_id", .str "r1")])⟩], 0, 0, 0⟩).forwarded
      = some (.obj [("report_id", .str "r1")]) ∧
    (handleSubmit ⟨some "sales.csv", 1700000000000, "datasets", none,
        [⟨true, 200, some (.obj [("report_id", .str "r1")])⟩], 0, 0, 0⟩).endSnapshot
      ("", 0) = ("Analysis complete!", 100) ∧
    (handleSubmit ⟨some "sales.csv", 1700000000000, "datasets", none,
        [⟨true, 200, some (.obj [("report_id", .str "r1")])⟩], 0, 0, 0⟩).storageKeys
      = [storageKey 1700000000000 "sales.csv"] :=
  valid_submission_succeeds _ "sales.csv" (.obj [("report_id", .str "r1")])
    ⟨true, 200, some (.obj [("report_id", .str "r1")])⟩ [] rfl rfl rfl rfl rfl rfl

/-- C4: when the storage write fails, the run ends as
`Failed(StorageError)` — the catch receives
`Upload to storage failed: <message>` — and the analyze call is never
issued (the progress interval is not even started). -/
theorem storage_failure_skips_analyze (env : SubmitEnv) (name message : String)
    (hf : env.selectedFileName = some name) (hext : extOf name = "csv")
    (hst : env.storageError = some message) :
    (handleSubmit env).final = .failed ("Upload to storage failed: " ++ message) ∧
    (handleSubmit env).analyzeCalled = false ∧
    (handleSubmit env).timerStarted = false ∧
    (handleSubmit env).storageKeys = [storageKey env.now name] := by
  obtain ⟨f, now, bkt, st, resp, rp, pt, lt⟩ := env
  simp only at hf hst
  subst hf; subst hst
  simp [handleSubmit, hext]

/-- Witness for C4 at a concrete failing storage write. -/
theorem storage_failure_skips_analyze_witness :
    (handleSubmit ⟨some "sales.csv", 1700000000000, "datasets", some "quota exceeded",
        [], 0, 0, 0⟩).final
      = .failed ("Upload to storage failed: " ++ "quota exceeded") ∧
    (handleSubmit ⟨some "sales.csv", 1700000000000, "datasets", some "quota exceeded",
        [], 0, 0, 0⟩).analyzeCalled = false ∧
    (handleSubmit ⟨some "sales.csv", 1700000000000, "datasets", some "quota exceeded",
        [], 0, 0, 0⟩).timerStarted = false ∧
    (handleSubmit ⟨some "sales.csv", 1700000000000, "datasets", some "quota exceeded",
        [], 0, 0, 0⟩).storageKeys = [storageKey 1700000000000 "sales.csv"] :=
  storage_failure_skips_analyze _ "sales.csv" "quota exceeded" rfl rfl rfl

/-- C5 (amended): on an analyze-call failure after a successful storage
write, the run ends failed with the message from the structured error body
when its `detail` field is present and truthy (for a string: non-empty);
otherwise — absent field, empty-string field, or an undecodable error body —
the message is `Analyze failed with status <status>`; a decode failure of
the error body never propagates as a decode error. -/
theorem analyze_failure_message_contract (env : SubmitEnv) (name : String)
    (r : HttpResponse) (rest : List HttpResponse)
    (hf : env.selectedFileName = some name) (hext : extOf name = "csv")
    (hst : env.storageError = none)
    (hresp : env.analyzeResponses = r :: rest) (hko : r.ok = false) :
    (∀ d, (r.json.getD (.obj [])).getField "detail" = some d →
      jsTruthy (some d) = true →
      (handleSubmit env).final = .failed (jsToString d)) ∧
    (jsTruthy ((r.json.getD (.obj [])).getField "detail") = false →
      (handleSubmit env).final
        = .failed ("Analyze failed with status " ++ decString r.status)) ∧
    (r.json = none →
      (handleSubmit env).final
        = .failed ("Analyze failed with status " ++ decString r.status)) := by
  obtain ⟨f, now, bkt, st, resp, rp, pt, lt⟩ := env
  simp only at hf hst hresp
  subst hf; subst hst; subst hresp
  have hcall : ApiService.analyzeSupabaseCSV bkt (storageKey now name) (r :: rest)
      = .error (ApiService.analyzeFailMessage r) := by
    obtain ⟨rok, rstatus, rjson⟩ := r
    simp only at hko
    subst hko
    rfl
  have hfin : (handleSubmit ⟨some name, now, bkt, none, r :: rest, rp, pt, lt⟩).final
      = .failed (ApiService.analyzeFailMessage r) := by
    simp [handleSubmit, hext, hcall]
  refine ⟨?_, ?_, ?_⟩
  · intro d hd htruthy
    rw [hfin]
    simp [ApiService.analyzeFailMessage, jsOrElse, hd, htruthy]
  · intro hfalsy
    rw [hfin]
    simp [ApiService.analyzeFailMessage, jsOrElse, hfalsy]
  · intro hnone
    rw [hfin]
    simp [ApiService.analyzeFailMessage, jsOrElse, hnone, jsTruthy, JsVal.getField]

/-- Witness for the amended C5: a `detail`-carrying error body and a
detail-free error body, at status 500. -/
theorem analyze_failure_message_contract_witness :
    (handleSubmit ⟨some "sales.csv", 1700000000000, "datasets", none,
        [⟨false, 500, some (.obj [("detail", .str "CSV is malformed")])⟩], 0, 0, 0⟩).final
      = .failed "CSV is malformed" ∧
    (handleSubmit ⟨some "sales.csv", 1700000000000, "datasets", none,
        [⟨false, 500, none⟩], 0, 0, 0⟩).final
      = .failed ("Analyze failed with status " ++ decString 500) :=
  ⟨(analyze_failure_message_contract _ "sales.csv"
      ⟨false, 500, some (.obj [("detail", .str "CSV is malformed")])⟩ []
      rfl rfl rfl rfl rfl).1 (.str "CSV is malformed") rfl rfl,
   (analyze_failure_message_contract _ "sales.csv"
      ⟨false, 500, none⟩ [] rfl rfl rfl rfl rfl).2.2 rfl⟩

/-- C5 counterexample: an error body whose `detail` field is present but is
the empty string. The claim says the failure message then equals that
`detail` value (the empty string); the code falls back to the status
message because the empty string is falsy under `||`. -/
theorem empty_detail_message_falls_back :
    (JsVal.obj [("detail", JsVal.str "")]).getField "detail"
      = some (JsVal.str "") ∧
    (handleSubmit ⟨some "sales.csv", 1700000000000, "datasets", none,
        [⟨false, 500, some (.obj [("detail", .str "")])⟩], 0, 0, 0⟩).final
      = .failed "Analyze failed with status 500" ∧
    "Analyze failed with status 500" ≠ "" :=
  ⟨rfl, rfl, by decide⟩

/-- C7 (amended): the storage key of a submission is
`<timestamp>_<filename>`, and any two submissions (of any filenames) whose
timestamps differ receive distinct keys; two submissions in the same
millisecond with the same filename receive the same key. -/
theorem storage_keys_distinct_across_timestamps
    (env₁ env₂ : SubmitEnv) (n₁ n₂ : String)
    (hf₁ : env₁.selectedFileName = some n₁) (he₁ : extOf n₁ = "csv")
    (hf₂ : env₂.selectedFileName = some n₂) (he₂ : extOf n₂ = "csv")
    (hne : env₁.now ≠ env₂.now) :
    (handleSubmit env₁).storageKeys = [storageKey env₁.now n₁] ∧
    (handleSubmit env₂).storageKeys = [storageKey env₂.now n₂] ∧
    storageKey env₁.now n₁ ≠ storageKey env₂.now n₂ :=
  ⟨storageKeys_of_valid env₁ n₁ hf₁ he₁,
   storageKeys_of_valid env₂ n₂ hf₂ he₂,
   storageKey_inj_time hne⟩

/-- Witness for the amended C7: two submissions of the same filename one
millisecond apart receive distinct keys. -/
theorem storage_keys_distinct_across_timestamps_witness :
    (handleSubmit ⟨some "sales.csv", 1700000000000, "datasets", none, [], 0, 0, 0⟩).storageKeys
      = [storageKey 1700000000000 "sales.csv"] ∧
    (handleSubmit ⟨some "sales.csv", 1700000000001, "datasets", none, [], 0, 0, 0⟩).storageKeys
      = [storageKey 1700000000001 "sales.csv"] ∧
    storageKey 1700000000000 "sales.csv" ≠ storageKey 1700000000001 "sales.csv" :=
  storage_keys_distinct_across_timestamps
    ⟨some "sales.csv", 1700000000000, "datasets", none, [], 0, 0, 0⟩
    ⟨some "sales.csv", 1700000000001, "datasets", none, [], 0, 0, 0⟩
    "sales.csv" "sales.csv" rfl rfl rfl rfl (by decide)

/-- C7 counterexample: two distinct submissions — the first fails its
storage write, the user resubmits the same file within the same
millisecond — generate the same storage key `1700000000000_sales.csv`,
so keys are not unique per submission attempt as claimed. -/
theorem same_millisecond_submissions_collide :
    (⟨some "sales.csv", 1700000000000, "datasets", some "service restarting",
        [], 0, 0, 0⟩ : SubmitEnv)
      ≠ ⟨some "sales.csv", 1700000000000, "datasets", none, [], 0, 0, 0⟩ ∧
    (handleSubmit ⟨some "sales.csv", 1700000000000, "datasets",
        some "service restarting", [], 0, 0, 0⟩).storageKeys
      = ["1700000000000_sales.csv"] ∧
    (handleSubmit ⟨some "sales.csv", 1700000000000, "datasets", none,
        [], 0, 0, 0⟩).storageKeys
      = ["1700000000000_sales.csv"] := by
  refine ⟨?_, rfl, rfl⟩
  intro h
  have := congrArg SubmitEnv.storageError h
  simp at this

/-- C8 (amended): each of the four API client operations issues exactly one
request (its outcome depends only on the first transport response, and an
absent response propagates as a generic network failure); a non-success
status always fails with the operation's human-readable message; a success
status succeeds when the body decodes — but a success status whose body
fails to decode also fails (with the decode rejection), so failure is not
exactly characterised by a non-success status. -/
theorem api_operations_error_contract (r : HttpResponse)
    (rest₁ rest₂ : List HttpResponse) (bucket path reportId : String) :
    (ApiService.healthCheck (r :: rest₁) = ApiService.healthCheck (r :: rest₂) ∧
     ApiService.uploadAndAnalyze (r :: rest₁) = ApiService.uploadAndAnalyze (r :: rest₂) ∧
     ApiService.analyzeSupabaseCSV bucket path (r :: rest₁)
       = ApiService.analyzeSupabaseCSV bucket path (r :: rest₂) ∧
     ApiService.getReportById reportId (r :: rest₁)
       = ApiService.getReportById reportId (r :: rest₂)) ∧
    (ApiService.healthCheck [] = .error fetchNetworkError ∧
     ApiService.uploadAndAnalyze [] = .error fetchNetworkError ∧
     ApiService.analyzeSupabaseCSV bucket path [] = .error fetchNetworkError ∧
     ApiService.getReportById reportId [] = .error fetchNetworkError) ∧
    (r.ok = false →
      ApiService.healthCheck (r :: rest₁) = .error "Health check failed" ∧
      ApiService.uploadAndAnalyze (r :: rest₁)
        = .error (ApiService.uploadFailMessage r) ∧
      ApiService.analyzeSupabaseCSV bucket path (r :: rest₁)
        = .error (ApiService.analyzeFailMessage r) ∧
      ApiService.getReportById reportId (r :: rest₁)
        = .error ("Failed to get report: " ++ decString r.status)) ∧
    (∀ v, r.ok = true → r.json = some v →
      ApiService.healthCheck (r :: rest₁) = .ok v ∧
      ApiService.uploadAndAnalyze (r :: rest₁) = .ok v ∧
      ApiService.analyzeSupabaseCSV bucket path (r :: rest₁) = .ok v ∧
      ApiService.getReportById reportId (r :: rest₁) = .ok v) := by
  refine ⟨⟨rfl, rfl, rfl, rfl⟩, ⟨rfl, rfl, rfl, rfl⟩, ?_, ?_⟩
  · intro hko
    refine ⟨?_, ?_, ?_, ?_⟩ <;>
      simp [ApiService.healthCheck, ApiService.uploadAndAnalyze,
        ApiService.analyzeSupabaseCSV, ApiService.getReportById, hko]
  · intro v hok hjson
    refine ⟨?_, ?_, ?_, ?_⟩ <;>
      simp [ApiService.healthCheck, ApiService.uploadAndAnalyze,
        ApiService.analyzeSupabaseCSV, ApiService.getReportById, hok, hjson]

/-- Witness for the amended C8: a 503 with an undecodable body fails all
four operations with their messages and ignores any queued second response;
a 200 with a decodable body succeeds. -/
theorem api_operations_error_contract_witness :
    ApiService.healthCheck [⟨false, 503, none⟩, ⟨true, 200, some .nullv⟩]
      = ApiService.healthCheck [⟨false, 503, none⟩] ∧
    ApiService.healthCheck [⟨false, 503, none⟩, ⟨true, 200, some .nullv⟩]
      = .error "Health check failed" ∧
    ApiService.analyzeSupabaseCSV "datasets" "k.csv"
        [⟨false, 503, none⟩, ⟨true, 200, some .nullv⟩]
      = .error (ApiService.analyzeFailMessage ⟨false, 503, none⟩) ∧
    ApiService.getReportById "r1" [⟨true, 200, some (.str "report")⟩]
      = .ok (.str "report") := by
  have h₁ := api_operations_error_contract ⟨false, 503, none⟩
    [⟨true, 200, some .nullv⟩] [] "datasets" "k.csv" "r1"
  have h₂ := api_operations_error_contract ⟨true, 200, some (.str "report")⟩
    [] [] "datasets" "k.csv" "r1"
  exact ⟨h₁.1.1, (h₁.2.2.1 rfl).1, (h₁.2.2.1 rfl).2.2.1,
    (h₂.2.2.2 (.str "report") rfl rfl).2.2.2⟩

/-- C8 counterexample: a response with a success status whose body is not
valid JSON. The claim says an operation fails exactly when the status is
non-success; here the status is success (`ok = true`) and yet the
operation fails, because `response.json()` rejects. -/
theorem ok_status_undecodable_body_still_fails :
    (⟨true, 200, none⟩ : HttpResponse).ok = true ∧
    ApiService.healthCheck [⟨true, 200, none⟩] = .error jsonDecodeError ∧
    ApiService.analyzeSupabaseCSV "datasets" "k.csv" [⟨true, 200, none⟩]
      = .error jsonDecodeError :=
  ⟨rfl, rfl, rfl⟩

/-- C1 (code bug): the interval is cleared only on the resolve path.
`clearInterval` is invoked after `await analysisPromise` inside the `try`
block; when the analyze call rejects, control jumps to the `catch` block,
which never calls `clearInterval`, so the timer is not stopped at
settlement — here a rejected run with the interval still firing three times
afterwards — while a resolved run does clear it. -/
theorem interval_not_cleared_on_rejection :
    (handleSubmit ⟨some "sales.csv", 1700000000000, "datasets", none,
        [⟨false, 500, some (.obj [("detail", .str "model overloaded")])⟩],
        0, 1, 3⟩).timerStarted = true ∧
    (handleSubmit ⟨some "sales.csv", 1700000000000, "datasets", none,
        [⟨false, 500, some (.obj [("detail", .str "model overloaded")])⟩],
        0, 1, 3⟩).timerCleared = false ∧
    (handleSubmit ⟨some "sales.csv", 1700000000000, "datasets", none,
        [⟨true, 200, some (.obj [("report_id", .str "r1")])⟩],
        0, 1, 0⟩).timerCleared = true :=
  ⟨rfl, rfl, rfl⟩

/-- C6 (code bug): the interval callback computes
`currentIndex = Math.floor((progress - 10) / 20)` from the `progress`
value captured by the `handleSubmit` closure — `0` at every reachable
submission start — so `currentIndex = -1` and the access
`progressSteps[-1].message` raises a `TypeError` on every tick: a full
run with five firings performs no tick writes at all. Even under a
live-state reading the callback can never advance: from a written
percentage of 25 it recomputes step index 0 and rewrites
(Schema Expert…, 25), and from 45 it recomputes index 1 and rewrites
(Data Cleaner…, 45), so the cadence never moves to the next step. -/
theorem progress_tick_crashes_and_never_advances :
    progressTick 0 = .crashed ∧
    ticksWrites 0 5 = [] ∧
    (handleSubmit ⟨some "sales.csv", 1700000000000, "datasets", none,
        [⟨true, 200, some (.obj [("report_id", .str "r1")])⟩], 0, 5, 0⟩).mainWrites
      = [.msg "Uploading file and initializing AI agents...", .pct 10,
         .msg "Uploading file to storage...",
         .msg "Analysis complete!", .pct 100] ∧
    progressTick 25 = .wrote "Schema Expert analyzing data structure..." 25 ∧
    progressTick 45 = .wrote "Data Cleaner processing quality issues..." 45 :=
  ⟨rfl, rfl, rfl, rfl, rfl⟩

theorem tickWriteList_of_wrote {c : Int} {m : String} {p : Int}
    (h : progressTick c = .wrote m p) :
    tickWriteList c = [.msg m, .pct p] := by
  simp [tickWriteList, h]

theorem tickWriteList_of_noop {c : Int} (h : progressTick c = .noop) :
    tickWriteList c = [] := by
  simp [tickWriteList, h]

theorem tickWriteList_of_crashed {c : Int} (h : progressTick c = .crashed) :
    tickWriteList c = [] := by
  simp [tickWriteList, h]

theorem ticksWrites_nil {c : Int} (h : tickWriteList c = []) :
    ∀ n, ticksWrites c n = [] := by
  intro n
  induction n with
  | zero => rfl
  | succ k ih => simp [ticksWrites, h, ih]

theorem pcts_append (a b : List PWrite) : pcts (a ++ b) = pcts a ++ pcts b := by
  simp [pcts, List.filterMap_append]

theorem pcts_ticksWrites_wrote {c : Int} {m : String} {p : Int}
    (h : progressTick c = .wrote m p) :
    ∀ n, pcts (ticksWrites c n) = List.replicate n p := by
  intro n
  induction n with
  | zero => rfl
  | succ k ih =>
    rw [show ticksWrites c (k + 1) = tickWriteList c ++ ticksWrites c k from rfl,
      pcts_append, tickWriteList_of_wrote h, ih, List.replicate_succ]
    rfl

theorem progressTick_wrote_bounds {c : Int} {m : String} {p : Int}
    (h : progressTick c = .wrote m p) : 10 ≤ p ∧ p ≤ 100 := by
  simp only [progressTick] at h
  by_cases hc : ((c - 10).fdiv 20) < (progressSteps.length : Int)
  · rw [if_pos hc] at h
    cases hj : jsIndex progressSteps ((c - 10).fdiv 20) with
    | none => rw [hj] at h; cases h
    | some s =>
      rw [hj] at h
      have hs : s ∈ progressSteps := by
        simp only [jsIndex] at hj
        by_cases hneg : (c - 10).fdiv 20 < 0
        · rw [if_pos hneg] at hj; cases hj
        · rw [if_neg hneg] at hj
          exact List.get?_mem hj
      have hall : ∀ x ∈ progressSteps, 10 ≤ x.2 ∧ x.2 ≤ 100 := by decide
      obtain ⟨h₁, h₂⟩ := hall s hs
      simp only [TickResult.wrote.injEq] at h
      rw [← h.2]
      exact ⟨h₁, h₂⟩
  · rw [if_neg hc] at h
    cases h

theorem chain_rep_100 :
    ∀ (n : Nat) (p : Int), p ≤ 100 →
      List.Chain' (· ≤ ·) (p :: (List.replicate n p ++ [100])) := by
  intro n
  induction n with
  | zero =>
    intro p h
    simpa [List.chain'_cons] using h
  | succ k ih =>
    intro p h
    rw [List.replicate_succ]
    exact List.chain'_cons.mpr ⟨le_refl p, ih p h⟩

theorem chain_rep :
    ∀ (n : Nat) (p : Int), List.Chain' (· ≤ ·) (p :: List.replicate n p) := by
  intro n
  induction n with
  | zero => intro p; exact List.chain'_singleton p
  | succ k ih =>
    intro p
    rw [List.replicate_succ]
    exact List.chain'_cons.mpr ⟨le_refl p, ih p⟩

theorem chain_10_rep_100 (n : Nat) (p : Int) (h₁ : (10 : Int) ≤ p)
    (h₂ : p ≤ 100) :
    List.Chain' (· ≤ ·) ((10 : Int) :: (List.replicate n p ++ [100])) := by
  cases n with
  | zero =>
    simp only [List.replicate_zero, List.nil_append]
    exact List.chain'_cons.mpr ⟨by omega, List.chain'_singleton _⟩
  | succ k =>
    rw [List.replicate_succ]
    exact List.chain'_cons.mpr ⟨h₁, chain_rep_100 k p h₂⟩

theorem chain_10_rep (n : Nat) (p : Int) (h₁ : (10 : Int) ≤ p) :
    List.Chain' (· ≤ ·) ((10 : Int) :: List.replicate n p) := by
  cases n with
  | zero =>
    simp only [List.replicate_zero]
    exact List.chain'_singleton _
  | succ k =>
    rw [List.replicate_succ]
    exact List.chain'_cons.mpr ⟨h₁, chain_rep k p⟩

theorem chain_ticks_100 (c : Int) (n : Nat) :
    List.Chain' (· ≤ ·) ((10 : Int) :: (pcts (ticksWrites c n) ++ [100])) := by
  cases ht : progressTick c with
  | wrote m p =>
    rw [pcts_ticksWrites_wrote ht]
    obtain ⟨h₁, h₂⟩ := progressTick_wrote_bounds ht
    exact chain_10_rep_100 n p h₁ h₂
  | noop =>
    rw [ticksWrites_nil (tickWriteList_of_noop ht)]
    exact List.chain'_cons.mpr ⟨by omega, List.chain'_singleton _⟩
  | crashed =>
    rw [ticksWrites_nil (tickWriteList_of_crashed ht)]
    exact List.chain'_cons.mpr ⟨by omega, List.chain'_singleton _⟩

theorem chain_ticks_plain (c : Int) (n : Nat) :
    List.Chain' (· ≤ ·) ((10 : Int) :: pcts (ticksWrites c n)) := by
  cases ht : progressTick c with
  | wrote m p =>
    rw [pcts_ticksWrites_wrote ht]
    obtain ⟨h₁, _⟩ := progressTick_wrote_bounds ht
    exact chain_10_rep n p h₁
  | noop =>
    rw [ticksWrites_nil (tickWriteList_of_noop ht)]
    exact List.chain'_singleton _
  | crashed =>
    rw [ticksWrites_nil (tickWriteList_of_crashed ht)]
    exact List.chain'_singleton _

/-- C9: within one submission the percentage writes of the submit flow and
the interval callback (the writes outside the failure reset) are
monotonically non-decreasing, in whatever order the interval manages to
fire; on failure the catch block resets the snapshot to the empty message
and 0; and under the reachable captured progress value 0 (the initial
state, and the state any failed run leaves behind — after a successful run
`isProcessing` stays true so no further submission can start on this
mount), every run that ends able to accept a new submission leaves the
snapshot at (empty, 0), so a new submission always starts from
(empty, 0). -/
theorem progress_monotone_and_reset (env : SubmitEnv) :
    List.Chain' (· ≤ ·) (pcts (handleSubmit env).mainWrites) ∧
    (∀ m, (handleSubmit env).final = .failed m →
      (handleSubmit env).catchWrites = [.pct 0, .msg ""]) ∧
    (env.renderProgress = 0 → (handleSubmit env).isProcessingEnd = false →
      (handleSubmit env).endSnapshot ("", 0) = ("", 0)) := by
  obtain ⟨f, now, bkt, st, resp, rp, pt, lt⟩ := env
  cases f with
  | none =>
    exact ⟨List.chain'_nil, fun m hm => FinalState.noConfusion hm,
      fun _ _ => rfl⟩
  | some name =>
    by_cases hext : extOf name = "csv"
    · cases st with
      | some msg =>
        refine ⟨?_, fun m _ => ?_, fun _ _ => ?_⟩
        · simp only [handleSubmit, hext, ne_eq, not_true_eq_false, if_false]
          exact List.chain'_singleton (10 : Int)
        · simp [handleSubmit, hext]
        · simp [handleSubmit, hext, SubmitTrace.endSnapshot, applyWrites,
            applyWrite]
      | none =>
        cases hcall : ApiService.analyzeSupabaseCSV bkt (storageKey now name) resp with
        | ok v =>
          refine ⟨?_, fun m hm => ?_, fun _ hproc => ?_⟩
          · simp only [handleSubmit, hext, ne_eq, not_true_eq_false, if_false,
              hcall]
            rw [pcts_append, pcts_append]
            exact chain_ticks_100 rp pt
          · simp only [handleSubmit, hext, ne_eq, not_true_eq_false, if_false,
              hcall] at hm
            exact FinalState.noConfusion hm
          · simp only [handleSubmit, hext, ne_eq, not_true_eq_false, if_false,
              hcall] at hproc
            exact Bool.noConfusion hproc
        | error m =>
          refine ⟨?_, fun m' _ => ?_, fun hrp _ => ?_⟩
          · simp only [handleSubmit, hext, ne_eq, not_true_eq_false, if_false,
              hcall]
            rw [pcts_append]
            exact chain_ticks_plain rp pt
          · simp [handleSubmit, hext, hcall]
          · subst hrp
            have h0 : ∀ n, ticksWrites 0 n = [] := ticksWrites_nil rfl
            simp [handleSubmit, hext, hcall, SubmitTrace.endSnapshot, h0,
              applyWrites, applyWrite, List.foldl_append]
    · refine ⟨?_, fun m _ => ?_, fun _ _ => ?_⟩
      · simp only [handleSubmit, if_pos hext]
        exact List.chain'_singleton (10 : Int)
      · simp [handleSubmit, hext]
      · simp [handleSubmit, hext, SubmitTrace.endSnapshot, applyWrites,
          applyWrite]

/-- Witness for C9 at a concrete failed run (storage write rejected) with
the captured progress value 0. -/
theorem progress_monotone_and_reset_witness :
    List.Chain' (· ≤ ·)
      (pcts (handleSubmit ⟨some "sales.csv", 1700000000000, "datasets",
        some "quota exceeded", [], 0, 0, 0⟩).mainWrites) ∧
    (handleSubmit ⟨some "sales.csv", 1700000000000, "datasets",
        some "quota exceeded", [], 0, 0, 0⟩).catchWrites = [.pct 0, .msg ""] ∧
    (handleSubmit ⟨some "sales.csv", 1700000000000, "datasets",
        some "quota exceeded", [], 0, 0, 0⟩).endSnapshot ("", 0) = ("", 0) := by
  have h := progress_monotone_and_reset
    ⟨some "sales.csv", 1700000000000, "datasets", some "quota exceeded", [], 0, 0, 0⟩
  exact ⟨h.1, h.2.1 ("Upload to storage failed: " ++ "quota exceeded") rfl,
    h.2.2 rfl rfl⟩

